import Mathlib

/-!
Shallow embedding of `homework.py`: a fitness-metrics calculator with an
abstract `Training` base class, three concrete variants (`Running`,
`SportsWalking`, `Swimming`), an `InfoMessage` report formatter, and a
`read_package` factory keyed by workout-type code.

Python floats are modelled as exact rationals (`ℚ`); every formula in the
source is rational arithmetic, so the model is exact.  Division in Python
(true `/` and floor `//`) raises `ZeroDivisionError` on a zero divisor, so
divisions are modelled as `Option`-valued; `read_package` returns `Except`
because it can raise.
-/

namespace Homework

/-- Model of Python float true division `a / b`: raises
`ZeroDivisionError` when `b == 0`, otherwise the exact quotient. -/
def pydiv (a b : ℚ) : Option ℚ :=
  if b = 0 then none else some (a / b)

/-- Model of Python float floor division `a // b`: raises
`ZeroDivisionError` when `b == 0`, otherwise `floor(a / b)` (a float in
Python, modelled as the rational image of the integer floor). -/
def pyfloordiv (a b : ℚ) : Option ℚ :=
  if b = 0 then none else some ((⌊a / b⌋ : ℤ) : ℚ)

/-- Dataclass `InfoMessage` with fields `training_type`, `duration`,
`distance`, `speed`, `calories`. -/
structure InfoMessage where
  training_type : String
  duration : ℚ
  distance : ℚ
  speed : ℚ
  calories : ℚ
deriving DecidableEq

/-- Rounding to the nearest integer with ties to even: the rounding that
Python fixed-point formatting applies to the scaled value. -/
def roundHalfEven (q : ℚ) : ℤ :=
  if q - ⌊q⌋ < 1/2 then ⌊q⌋
  else if q - ⌊q⌋ > 1/2 then ⌊q⌋ + 1
  else if ⌊q⌋ % 2 = 0 then ⌊q⌋ else ⌊q⌋ + 1

/-- Zero-padding of a numeral to three digits. -/
def natPad3 (n : ℕ) : String :=
  if n < 10 then "00" ++ toString n
  else if n < 100 then "0" ++ toString n
  else toString n

/-- Model of the Python format spec `.3f`: fixed-point rendering with
exactly three decimals. -/
def formatFixed3 (q : ℚ) : String :=
  let n := roundHalfEven (q * 1000)
  if n < 0 then
    "-" ++ toString ((-n) / 1000) ++ "." ++ natPad3 ((-n) % 1000).toNat
  else
    toString (n / 1000) ++ "." ++ natPad3 (n % 1000).toNat

/-- Method `InfoMessage.get_message`: renders
`MESSAGE.format(**asdict(self))`, the fixed template with the four numeric
fields at three decimals. -/
def InfoMessage.get_message (m : InfoMessage) : String :=
  "Тип тренировки: " ++ m.training_type
    ++ "; Длительность: " ++ formatFixed3 m.duration
    ++ " ч.; Дистанция: " ++ formatFixed3 m.distance
    ++ " км; Ср. скорость: " ++ formatFixed3 m.speed
    ++ " км/ч; Потрачено ккал: " ++ formatFixed3 m.calories
    ++ "."

/-- The closed class hierarchy rooted at `Training`:
`Running(action, duration, weight)`, `SportsWalking(action, duration,
weight, height)`, `Swimming(action, duration, weight, length_pool,
count_pool)`.  All numeric inputs are Python numbers, modelled as `ℚ`. -/
inductive Training where
  | running (action duration weight : ℚ)
  | sportsWalking (action duration weight height : ℚ)
  | swimming (action duration weight length_pool count_pool : ℚ)
deriving DecidableEq

/-- Class constant `M_IN_KM = 1000`. -/
def M_IN_KM : ℚ := 1000

/-- Class constant `MIN_IN_HOUR = 60`. -/
def MIN_IN_HOUR : ℚ := 60

/-- Field `self.action`. -/
def Training.action : Training → ℚ
  | .running a _ _ => a
  | .sportsWalking a _ _ _ => a
  | .swimming a _ _ _ _ => a

/-- Field `self.duration_h`. -/
def Training.duration_h : Training → ℚ
  | .running _ d _ => d
  | .sportsWalking _ d _ _ => d
  | .swimming _ d _ _ _ => d

/-- Field `self.weight_kg`. -/
def Training.weight_kg : Training → ℚ
  | .running _ _ w => w
  | .sportsWalking _ _ w _ => w
  | .swimming _ _ w _ _ => w

/-- Field `self.duration_in_min = self.duration_h * MIN_IN_HOUR`, set in
the base constructor. -/
def Training.duration_in_min (t : Training) : ℚ :=
  t.duration_h * MIN_IN_HOUR

/-- Class attribute `LEN_STEP`: `0.65` on the base class (inherited by
`Running` and `SportsWalking`), overridden to `1.38` on `Swimming`. -/
def Training.LEN_STEP : Training → ℚ
  | .swimming _ _ _ _ _ => 1.38
  | _ => 0.65

/-- Expression `type(self).__name__`, the concrete class name used by
`show_training_info`. -/
def Training.typeName : Training → String
  | .running _ _ _ => "Running"
  | .sportsWalking _ _ _ _ => "SportsWalking"
  | .swimming _ _ _ _ _ => "Swimming"

/-- Method `Training.get_distance`:
`self.action * self.LEN_STEP / self.M_IN_KM` (inherited unchanged by all
three variants; only `LEN_STEP` varies). -/
def Training.get_distance (t : Training) : Option ℚ :=
  pydiv (t.action * t.LEN_STEP) M_IN_KM

/-- Method `get_mean_speed`: base implementation
`self.get_distance() / self.duration_h`, inherited by `Running` and
`SportsWalking`; `Swimming` overrides it with
`self.length_pool_m * self.count_pool / self.M_IN_KM / self.duration_h`. -/
def Training.get_mean_speed : Training → Option ℚ
  | .swimming _ d _ l c =>
      (pydiv (l * c) M_IN_KM).bind fun x => pydiv x d
  | t => t.get_distance.bind fun dist => pydiv dist t.duration_h

/-- Method `get_spent_calories`, per concrete variant (each calls the
variant own `get_mean_speed`):
Running — `(18 * speed - 20) * weight_kg / M_IN_KM * duration_in_min`;
SportsWalking — `(0.035 * weight_kg + (speed ** 2 // height_cm) * 0.029 *
weight_kg) * duration_in_min`;
Swimming — `(speed + 1.1) * 2 * weight_kg`. -/
def Training.get_spent_calories (t : Training) : Option ℚ :=
  match t with
  | .running _ _ _ =>
      t.get_mean_speed.bind fun s =>
        (pydiv ((18 * s - 20) * t.weight_kg) M_IN_KM).map fun per_min =>
          per_min * t.duration_in_min
  | .sportsWalking _ _ _ h =>
      t.get_mean_speed.bind fun s =>
        (pyfloordiv (s ^ 2) h).map fun q =>
          (0.035 * t.weight_kg + q * 0.029 * t.weight_kg) * t.duration_in_min
  | .swimming _ _ _ _ _ =>
      t.get_mean_speed.map fun s =>
        (s + 1.1) * 2 * t.weight_kg

/-- Method `Training.show_training_info`: builds
`InfoMessage(type(self).__name__, self.duration_h, self.get_distance(),
self.get_mean_speed(), self.get_spent_calories())`; arguments evaluate
left to right, so a `ZeroDivisionError` from any metric propagates. -/
def Training.show_training_info (t : Training) : Option InfoMessage :=
  t.get_distance.bind fun dist =>
    t.get_mean_speed.bind fun speed =>
      t.get_spent_calories.map fun cal =>
        ⟨t.typeName, t.duration_h, dist, speed, cal⟩

/-- Everything `read_package` can raise. -/
inductive ReadPackageError where
  /-- The unknown-code branch executes `raise` on a plain `str` (the
  formatted message, recorded here).  Python 3 rejects raising a
  non-exception: the caller observes
  `TypeError: exceptions must derive from BaseException`, and the recorded
  string — the only place the accepted codes are listed — never reaches
  the caller. -/
  | typeErrorRaisingStr (discarded : String)
  /-- Call `WORKOUT_TYPES[workout_type](*data)` with the wrong number of
  positional arguments: Python raises `TypeError` at the call, before the
  constructor body or any metric computation runs. -/
  | typeErrorArity (code : String) (expected got : Nat)
deriving DecidableEq

/-- Keys of the `WORKOUT_TYPES` dispatch dict, in insertion order. -/
def WORKOUT_TYPE_CODES : List String := ["SWM", "RUN", "WLK"]

/-- Local variable `acceptable_types_training`: the comma-separated join
of the dispatch keys. -/
def acceptable_types_training : String :=
  String.intercalate (", ") WORKOUT_TYPE_CODES

/-- Call `WORKOUT_TYPES[code](*data)`: succeeds exactly when `data` has
the constructor arity (3 for RUN, 4 for WLK, 5 for SWM). -/
def applyWorkoutType : String → List ℚ → Option Training
  | "SWM", [a, d, w, l, c] => some (.swimming a d w l c)
  | "RUN", [a, d, w] => some (.running a d w)
  | "WLK", [a, d, w, h] => some (.sportsWalking a d w h)
  | _, _ => none

/-- Required positional arity of each variant constructor. -/
def requiredArity : String → Nat
  | "SWM" => 5
  | "WLK" => 4
  | _ => 3

/-- Function `read_package(workout_type, data)`: an unknown code executes
`raise` on the concatenated f-string (a `str`, hence
`typeErrorRaisingStr`); a known code calls
`WORKOUT_TYPES[workout_type](*data)`, a `TypeError` when the arity is
wrong, otherwise the constructed instance. -/
def read_package (workout_type : String) (data : List ℚ) :
    Except ReadPackageError Training :=
  if workout_type ∈ WORKOUT_TYPE_CODES then
    match applyWorkoutType workout_type data with
    | some t => .ok t
    | none =>
        .error (.typeErrorArity workout_type (requiredArity workout_type)
          data.length)
  else
    .error (.typeErrorRaisingStr
      ("Получен неизвестный тип тренировки - " ++ workout_type ++ "."
        ++ "Допустимые значения - " ++ acceptable_types_training))

/-- C1: for every Running workout with positive duration, the calories
method returns exactly `(18 * meanSpeed - 20) * weight / 1000 * duration *
60`, i.e. the per-minute coefficient formula times the minutes of the
workout (exact rational equality, hence within any floating tolerance). -/
theorem running_calories_formula (a d w : ℚ) (hd : 0 < d) :
    ∃ s, Training.get_mean_speed (.running a d w) = some s ∧
      Training.get_spent_calories (.running a d w)
        = some ((18 * s - 20) * w / 1000 * d * 60) := by
  refine ⟨a * 0.65 / 1000 / d, ?_, ?_⟩ <;>
    simp [Training.get_mean_speed, Training.get_distance,
      Training.get_spent_calories, Training.duration_in_min,
      Training.duration_h, Training.weight_kg, Training.action,
      Training.LEN_STEP, pydiv, M_IN_KM, MIN_IN_HOUR, hd.ne']
  ring

/-- Witness for C1 at the driver input RUN (15000, 1, 75). -/
theorem running_calories_formula_witness :
    ∃ s, Training.get_mean_speed (.running 15000 1 75) = some s ∧
      Training.get_spent_calories (.running 15000 1 75)
        = some ((18 * s - 20) * 75 / 1000 * 1 * 60) :=
  running_calories_formula 15000 1 75 (by norm_num)

/-- C2: for every Swimming workout with positive duration, the overridden
mean speed equals `length_pool * count_pool / 1000 / duration`, and the
result does not depend on the action count (hence not on the generic
step-length distance formula). -/
theorem swimming_mean_speed_formula (a d w l c : ℚ) (hd : 0 < d) :
    Training.get_mean_speed (.swimming a d w l c) = some (l * c / 1000 / d)
      ∧ ∀ a2 : ℚ, Training.get_mean_speed (.swimming a2 d w l c)
          = Training.get_mean_speed (.swimming a d w l c) := by
  refine ⟨?_, fun a2 => rfl⟩
  simp [Training.get_mean_speed, pydiv, M_IN_KM, hd.ne']

/-- Witness for C2 at the driver input SWM (720, 1, 80, 25, 40). -/
theorem swimming_mean_speed_formula_witness :
    Training.get_mean_speed (.swimming 720 1 80 25 40)
        = some (25 * 40 / 1000 / 1)
      ∧ ∀ a2 : ℚ, Training.get_mean_speed (.swimming a2 1 80 25 40)
          = Training.get_mean_speed (.swimming 720 1 80 25 40) :=
  swimming_mean_speed_formula 720 1 80 25 40 (by norm_num)

/-- C3: for every Walking workout with positive duration and height, the
calories method returns `(0.035 * weight + floor(speed ^ 2 / height) *
0.029 * weight) * (duration * 60)` — the middle term is the FLOOR of the
squared speed over the height (Python `//`), not the true quotient. -/
theorem walking_calories_floor_division (a d w h : ℚ) (hd : 0 < d)
    (hh : 0 < h) :
    ∃ s, Training.get_mean_speed (.sportsWalking a d w h) = some s ∧
      Training.get_spent_calories (.sportsWalking a d w h)
        = some ((0.035 * w + (⌊s ^ 2 / h⌋ : ℚ) * 0.029 * w) * (d * 60)) := by
  refine ⟨a * 0.65 / 1000 / d, ?_, ?_⟩ <;>
    simp [Training.get_mean_speed, Training.get_distance,
      Training.get_spent_calories, Training.duration_in_min,
      Training.duration_h, Training.weight_kg, Training.action,
      Training.LEN_STEP, pydiv, pyfloordiv, M_IN_KM, MIN_IN_HOUR,
      hd.ne', hh.ne']

/-- Witness for C3 at the driver input WLK (9000, 1, 75, 180), where the
floor quotient (0) differs from the true quotient (34.2225 / 180). -/
theorem walking_calories_floor_division_witness :
    ∃ s, Training.get_mean_speed (.sportsWalking 9000 1 75 180) = some s ∧
      Training.get_spent_calories (.sportsWalking 9000 1 75 180)
        = some ((0.035 * 75 + (⌊s ^ 2 / 180⌋ : ℚ) * 0.029 * 75) * (1 * 60)) :=
  walking_calories_floor_division 9000 1 75 180 (by norm_num) (by norm_num)

/-- C4: for every workout, `get_distance` is `action * LEN_STEP / 1000`,
with `LEN_STEP = 0.65` for Running and SportsWalking and `1.38` for
Swimming; and the Swimming mean-speed value is `length_pool * count_pool /
1000 / duration`, which does not involve `LEN_STEP`. -/
theorem distance_uses_variant_step_length :
    (∀ t : Training,
        t.get_distance = some (t.action * t.LEN_STEP / 1000))
      ∧ (∀ a d w, Training.LEN_STEP (.running a d w) = 0.65)
      ∧ (∀ a d w h, Training.LEN_STEP (.sportsWalking a d w h) = 0.65)
      ∧ (∀ a d w l c, Training.LEN_STEP (.swimming a d w l c) = 1.38)
      ∧ (∀ a d w l c, d ≠ 0 →
          Training.get_mean_speed (.swimming a d w l c)
            = some (l * c / 1000 / d)) := by
  refine ⟨?_, fun a d w => rfl, fun a d w h => rfl,
    fun a d w l c => rfl, ?_⟩
  · intro t
    simp [Training.get_distance, pydiv, M_IN_KM]
  · intro a d w l c hd
    simp [Training.get_mean_speed, pydiv, M_IN_KM, hd]

/-- Witness for C4 at the driver input SWM (720, 1, 80, 25, 40). -/
theorem distance_uses_variant_step_length_witness :
    Training.get_mean_speed (.swimming 720 1 80 25 40)
      = some (25 * 40 / 1000 / 1) :=
  distance_uses_variant_step_length.2.2.2.2 720 1 80 25 40 (by norm_num)

/-- C5 (bug evidence): for any data, `read_package` with the unknown code
XYZ reaches the unknown-code branch and executes `raise` on a plain `str`
— the message below, which does list the accepted codes, but which Python
3 discards, surfacing only `TypeError: exceptions must derive from
BaseException` to the caller. -/
theorem read_package_unknown_code_raises_str (data : List ℚ) :
    read_package ("XYZ") data
      = .error (.typeErrorRaisingStr
          ("Получен неизвестный тип тренировки - XYZ."
            ++ "Допустимые значения - SWM, RUN, WLK")) := by
  rfl

/-- C6: for every code in the dispatch table and every value list whose
length differs from the required arity (3 for RUN, 4 for WLK, 5 for SWM),
`read_package` returns the arity TypeError raised at the constructor
call, before any metric computation. -/
theorem read_package_wrong_arity (code : String) (data : List ℚ)
    (hcode : code ∈ WORKOUT_TYPE_CODES)
    (hlen : data.length ≠ requiredArity code) :
    read_package code data
      = .error (.typeErrorArity code (requiredArity code) data.length) := by
  have hc : code = "SWM" ∨ code = "RUN" ∨ code = "WLK" := by
    simpa [WORKOUT_TYPE_CODES] using hcode
  have happ : applyWorkoutType code data = none := by
    rcases hc with rfl | rfl | rfl <;>
      rcases data with _ | ⟨a, _ | ⟨b, _ | ⟨c, _ | ⟨e, _ | ⟨f, _ | ⟨g, rest⟩⟩⟩⟩⟩⟩ <;>
      first
        | rfl
        | simp [requiredArity] at hlen
  simp [read_package, hcode, happ]

/-- Witness for C6 at the spec example RUN with the two values 1, 2. -/
theorem read_package_wrong_arity_witness :
    read_package ("RUN") [1, 2]
      = .error (.typeErrorArity ("RUN") 3 2) := by
  simpa [requiredArity] using
    read_package_wrong_arity ("RUN") [1, 2] (by decide) (by decide)

/-- C7 (amended): construction through `read_package` with a known code
and correct arity succeeds for all values, including non-positive ones;
with `duration = 0` every variant fails with a division-by-zero at metric
evaluation (mean speed and calories); a Walking workout with `height = 0`
fails at calorie evaluation for every duration; and whenever the relevant
divisors are nonzero — in particular for negative durations or heights
and for any pool length — every metric evaluates without error. -/
theorem construction_succeeds_errors_lazy :
    (∀ a d w, read_package ("RUN") [a, d, w] = .ok (.running a d w))
      ∧ (∀ a d w h, read_package ("WLK") [a, d, w, h]
          = .ok (.sportsWalking a d w h))
      ∧ (∀ a d w l c, read_package ("SWM") [a, d, w, l, c]
          = .ok (.swimming a d w l c))
      ∧ (∀ a w, (Training.running a 0 w).get_mean_speed = none
          ∧ (Training.running a 0 w).get_spent_calories = none)
      ∧ (∀ a w h, (Training.sportsWalking a 0 w h).get_mean_speed = none
          ∧ (Training.sportsWalking a 0 w h).get_spent_calories = none)
      ∧ (∀ a w l c, (Training.swimming a 0 w l c).get_mean_speed = none
          ∧ (Training.swimming a 0 w l c).get_spent_calories = none)
      ∧ (∀ a d w, (Training.sportsWalking a d w 0).get_spent_calories = none)
      ∧ (∀ a d w, d ≠ 0 →
          ((Training.running a d w).show_training_info).isSome = true)
      ∧ (∀ a d w h, d ≠ 0 → h ≠ 0 →
          ((Training.sportsWalking a d w h).show_training_info).isSome = true)
      ∧ (∀ a d w l c, d ≠ 0 →
          ((Training.swimming a d w l c).show_training_info).isSome = true) := by
  refine ⟨fun a d w => rfl, fun a d w h => rfl, fun a d w l c => rfl,
    ?_, ?_, ?_, ?_, ?_, ?_, ?_⟩
  · intro a w
    constructor <;>
      simp [Training.get_mean_speed, Training.get_spent_calories,
        Training.get_distance, Training.duration_h, pydiv, M_IN_KM]
  · intro a w h
    constructor <;>
      simp [Training.get_mean_speed, Training.get_spent_calories,
        Training.get_distance, Training.duration_h, pydiv, M_IN_KM]
  · intro a w l c
    constructor <;>
      simp [Training.get_mean_speed, Training.get_spent_calories,
        Training.get_distance, Training.duration_h, pydiv, M_IN_KM]
  · intro a d w
    by_cases hd : d = 0 <;>
      simp [Training.get_mean_speed, Training.get_spent_calories,
        Training.get_distance, Training.duration_h, pydiv, pyfloordiv,
        M_IN_KM, hd]
  · intro a d w hd
    simp [Training.show_training_info, Training.get_mean_speed,
      Training.get_spent_calories, Training.get_distance,
      Training.duration_h, pydiv, M_IN_KM, hd]
  · intro a d w h hd hh
    simp [Training.show_training_info, Training.get_mean_speed,
      Training.get_spent_calories, Training.get_distance,
      Training.duration_h, pydiv, pyfloordiv, M_IN_KM, hd, hh]
  · intro a d w l c hd
    simp [Training.show_training_info, Training.get_mean_speed,
      Training.get_spent_calories, Training.get_distance,
      Training.duration_h, pydiv, M_IN_KM, hd]

/-- Witness for C7 (amended) at a negative duration and a zero pool
length: metrics still evaluate. -/
theorem construction_succeeds_errors_lazy_witness :
    ((Training.running 15000 (-1) 75).show_training_info).isSome = true
      ∧ ((Training.swimming 720 1 80 0 40).show_training_info).isSome
          = true :=
  ⟨construction_succeeds_errors_lazy.2.2.2.2.2.2.2.1 15000 (-1) 75
      (by norm_num),
    construction_succeeds_errors_lazy.2.2.2.2.2.2.2.2.2 720 1 80 0 40
      (by norm_num)⟩

/-- Counterexample for C7 as stated: a Running workout with the negative
duration -1 and a Swimming workout with pool length 0 evaluate all
metrics without any error, although the claim says non-positive duration
raises a division-by-zero and non-positive pool length errors
downstream. -/
theorem nonpositive_inputs_no_error_cex :
    (Training.running 15000 (-1) 75).show_training_info
        = some ⟨("Running"), -1, 9.75, -9.75, 879.75⟩
      ∧ (Training.swimming 720 1 80 0 40).show_training_info
          = some ⟨("Swimming"), 1, 0.9936, 0, 176⟩ := by
  constructor <;>
    norm_num [Training.show_training_info, Training.get_mean_speed,
      Training.get_spent_calories, Training.get_distance,
      Training.duration_h, Training.duration_in_min, Training.weight_kg,
      Training.action, Training.LEN_STEP, Training.typeName, pydiv,
      M_IN_KM, MIN_IN_HOUR, InfoMessage.mk.injEq]

/-- C8 (amended): the workout built by `read_package` for SWM (720, 1,
80, 25, 40) reports distance 0.9936 (≈ 0.994, from step length 1.38),
mean speed exactly 1, and calories exactly 336. -/
theorem swm_end_to_end_metrics :
    read_package ("SWM") [720, 1, 80, 25, 40]
        = .ok (.swimming 720 1 80 25 40)
      ∧ (Training.swimming 720 1 80 25 40).get_distance = some 0.9936
      ∧ (Training.swimming 720 1 80 25 40).get_mean_speed = some 1
      ∧ (Training.swimming 720 1 80 25 40).get_spent_calories = some 336 := by
  refine ⟨rfl, ?_, ?_, ?_⟩ <;>
    norm_num [Training.get_distance, Training.get_mean_speed,
      Training.get_spent_calories, Training.action, Training.LEN_STEP,
      Training.duration_h, Training.weight_kg, pydiv, M_IN_KM]

/-- Counterexample for C8 as stated: the distance of the SWM (720, 1, 80,
25, 40) workout is 0.9936, not approximately 0.468 (the two differ by
0.5256, far beyond any rounding tolerance). -/
theorem swm_distance_cex :
    (Training.swimming 720 1 80 25 40).get_distance = some 0.9936
      ∧ ¬|(0.9936 : ℚ) - 0.468| ≤ 1 / 1000 := by
  constructor
  · norm_num [Training.get_distance, Training.action, Training.LEN_STEP,
      pydiv, M_IN_KM]
  · norm_num [abs_le]

/-- C9 (amended): the workout built by `read_package` for RUN (15000, 1,
75) reports distance 9.75, mean speed 9.75, and calories exactly 699.75
(per the formula (18 * 9.75 - 20) * 75 / 1000 * 60). -/
theorem run_end_to_end_metrics :
    read_package ("RUN") [15000, 1, 75] = .ok (.running 15000 1 75)
      ∧ (Training.running 15000 1 75).get_distance = some 9.75
      ∧ (Training.running 15000 1 75).get_mean_speed = some 9.75
      ∧ (Training.running 15000 1 75).get_spent_calories = some 699.75 := by
  refine ⟨rfl, ?_, ?_, ?_⟩ <;>
    norm_num [Training.get_distance, Training.get_mean_speed,
      Training.get_spent_calories, Training.action, Training.LEN_STEP,
      Training.duration_h, Training.duration_in_min, Training.weight_kg,
      pydiv, M_IN_KM, MIN_IN_HOUR]

/-- Counterexample for C9 as stated: the calories of the RUN (15000, 1,
75) workout are 699.75, not approximately 7920. -/
theorem run_calories_cex :
    (Training.running 15000 1 75).get_spent_calories = some 699.75
      ∧ ¬|(699.75 : ℚ) - 7920| ≤ 1 := by
  constructor
  · norm_num [Training.get_distance, Training.get_mean_speed,
      Training.get_spent_calories, Training.action, Training.LEN_STEP,
      Training.duration_h, Training.duration_in_min, Training.weight_kg,
      pydiv, M_IN_KM, MIN_IN_HOUR]
  · norm_num [abs_le]

/-- C10: for every workout whose report succeeds, the formatted message
is exactly the fixed template — variant name, then the four numeric
fields duration, distance, speed, calories in that order, each rendered
at three decimals — and the variant name is Running, SportsWalking, or
Swimming according to the concrete variant. -/
theorem report_message_template (t : Training) (info : InfoMessage)
    (h : t.show_training_info = some info) :
    (∃ dist speed cal,
        t.get_distance = some dist
          ∧ t.get_mean_speed = some speed
          ∧ t.get_spent_calories = some cal
          ∧ info.get_message
              = "Тип тренировки: " ++ t.typeName ++ "; Длительность: "
                ++ formatFixed3 t.duration_h ++ " ч.; Дистанция: "
                ++ formatFixed3 dist ++ " км; Ср. скорость: "
                ++ formatFixed3 speed ++ " км/ч; Потрачено ккал: "
                ++ formatFixed3 cal ++ ".")
      ∧ (∀ a d w, t = .running a d w → t.typeName = "Running")
      ∧ (∀ a d w hh, t = .sportsWalking a d w hh
          → t.typeName = "SportsWalking")
      ∧ (∀ a d w l c, t = .swimming a d w l c
          → t.typeName = "Swimming") := by
  refine ⟨?_, by rintro a d w rfl; rfl, by rintro a d w hh rfl; rfl,
    by rintro a d w l c rfl; rfl⟩
  unfold Training.show_training_info at h
  rw [Option.bind_eq_some] at h
  obtain ⟨dist, hdist, h⟩ := h
  rw [Option.bind_eq_some] at h
  obtain ⟨speed, hspeed, h⟩ := h
  rw [Option.map_eq_some'] at h
  obtain ⟨cal, hcal, h⟩ := h
  subst h
  exact ⟨dist, speed, cal, hdist, hspeed, hcal, rfl⟩

/-- Witness for C10 at the driver input RUN (15000, 1, 75). -/
theorem report_message_template_witness :
    (∃ dist speed cal,
        (Training.running 15000 1 75).get_distance = some dist
          ∧ (Training.running 15000 1 75).get_mean_speed = some speed
          ∧ (Training.running 15000 1 75).get_spent_calories = some cal
          ∧ InfoMessage.get_message ⟨("Running"), 1, 9.75, 9.75, 699.75⟩
              = "Тип тренировки: "
                ++ (Training.running 15000 1 75).typeName
                ++ "; Длительность: "
                ++ formatFixed3 ((Training.running 15000 1 75).duration_h)
                ++ " ч.; Дистанция: " ++ formatFixed3 dist
                ++ " км; Ср. скорость: " ++ formatFixed3 speed
                ++ " км/ч; Потрачено ккал: " ++ formatFixed3 cal ++ ".")
      ∧ (Training.running 15000 1 75).typeName = "Running" :=
  have hmain := report_message_template (.running 15000 1 75)
    ⟨("Running"), 1, 9.75, 9.75, 699.75⟩
    (by norm_num [Training.show_training_info, Training.get_mean_speed,
      Training.get_spent_calories, Training.get_distance,
      Training.duration_h, Training.duration_in_min, Training.weight_kg,
      Training.action, Training.LEN_STEP, Training.typeName, pydiv,
      M_IN_KM, MIN_IN_HOUR, InfoMessage.mk.injEq])
  ⟨hmain.1, hmain.2.1 15000 1 75 rfl⟩

end Homework
